import Mathlib

/-!
Shallow embedding of the chat gateway in src/my-chatapp/api/chat.py.

The module has three request-level pieces:
a rate-limit decorator (function rate_limit), the chat handler
(function handle_chat behind POST /api/chat), and a health check
(function health_check behind GET /api/health).

Modelling conventions:
- Timestamps (Python time.time floats) are modelled as integers; the
  rate-limit logic only subtracts and compares timestamps, so the
  embedding is exact on every integer-valued schedule.
- The per-IP dict request_timestamps is a total map from client id to a
  timestamp list; a key that was never written holds [], which matches
  the explicit initialisation to [] on first sight of an IP.
- Parsed JSON bodies are a Json inductive mirroring the Python values
  request.get_json can return, with Python truthiness made explicit.
- Exceptions raised by the upstream call are values of type PyExc
  carrying a class tag and a message string; the except-clause chain is
  translated clause by clause, using the class hierarchy of the openai
  v1 library that the import line of chat.py requires
  (from openai import OpenAI, APIError, AuthenticationError,
  APIConnectionError, Timeout):
  AuthenticationError and APIConnectionError subclass APIError,
  APITimeoutError subclasses APIConnectionError, and the name Timeout
  that openai v1 re-exports is httpx.Timeout, a configuration class
  that is not an exception; an except clause naming it makes Python
  raise a TypeError when that clause is consulted, and that TypeError
  escapes to the outer blanket handler of handle_chat.
- Flask request.get_json raises a BadRequest error on a malformed JSON
  body (it does not return None); an absent body is modelled as
  returning None, the permissive behaviour, which is the reading most
  favourable to the specification.
-/

/-- Python values that Flask request.get_json can hand to the view:
the result of parsing a JSON document. Numbers are modelled as
integers, which covers every token count and test body in play. -/
inductive Json where
  | null
  | bool (b : Bool)
  | num (n : ℤ)
  | str (s : String)
  | arr (elems : List Json)
  | obj (fields : List (String × Json))

/-- Python truthiness of a parsed JSON value: None, False, 0, the empty
string, the empty list and the empty dict are falsy. -/
def truthy : Json → Bool
  | .null => false
  | .bool b => b
  | .num n => n != 0
  | .str s => s != ""
  | .arr xs => !xs.isEmpty
  | .obj fs => !fs.isEmpty

/-- Truthiness of an optional value: Python None is falsy. -/
def optTruthy : Option Json → Bool
  | none => false
  | some j => truthy j

/-- Dict lookup on a parsed JSON object, first matching key wins
(Python dict keys are unique, so first match is the match). -/
def jsonGet (fs : List (String × Json)) (k : String) : Option Json :=
  (fs.find? (fun p => p.1 == k)).map (fun p => p.2)

/-- Python str.strip with no arguments: drop leading and trailing
whitespace. Implemented structurally on the character list so that the
kernel can evaluate it. -/
def pyStrip (s : String) : String :=
  String.mk (((s.toList.dropWhile Char.isWhitespace).reverse.dropWhile
    Char.isWhitespace).reverse)

/-- Test of isinstance(user_message, str) on an optional JSON value. -/
def isStr : Option Json → Bool
  | some (.str _) => true
  | _ => false

/-- String payload of an optional JSON value; only consulted after
isStr has succeeded, the default is never observable. -/
def strVal : Option Json → String
  | some (.str s) => s
  | _ => ""

/-- Rejection test of handle_chat on the extracted message value:
not user_message or not isinstance(user_message, str)
or len(user_message.strip()) == 0. -/
def invalidMessage (m : Option Json) : Bool :=
  !optTruthy m || !isStr m || (pyStrip (strVal m) == "")

/-- Constant RATE_LIMIT of chat.py: maximum requests per IP inside one
window. -/
def RATE_LIMIT : ℕ := 10

/-- Constant RATE_LIMIT_WINDOW of chat.py: window length in seconds. -/
def RATE_LIMIT_WINDOW : ℤ := 60

/-- State of the module-level dict request_timestamps: a total map from
client IP to the list of recorded request times. An IP never seen maps
to [], matching the initialisation on first access. -/
abbrev RateState := String → List ℤ

/-- Pointwise update of the timestamp map, as performed by the dict
assignment request_timestamps[client_ip] = ... in rate_limit. -/
def update (s : RateState) (ip : String) (l : List ℤ) : RateState :=
  fun k => if k = ip then l else s k

/-- List comprehension of rate_limit: keep t when now - t <
RATE_LIMIT_WINDOW. Note the strict bound: an entry whose age is
exactly RATE_LIMIT_WINDOW is discarded. -/
def prune (now : ℤ) (l : List ℤ) : List ℤ :=
  l.filter (fun t => now - t < RATE_LIMIT_WINDOW)

/-- Outcome of one pass through the rate_limit decorator for one
request: whether the wrapped view ran, and the timestamp map after the
call. -/
structure GateResult where
  allowed : Bool
  state : RateState

/-- One call of the rate_limit decorator body for client ip at time
now: prune the stored list, reject with 429 when RATE_LIMIT entries
remain, otherwise record now and run the wrapped view. -/
def rate_limit_gate (s : RateState) (ip : String) (now : ℤ) : GateResult :=
  if RATE_LIMIT ≤ (prune now (s ip)).length then
    ⟨false, update s ip (prune now (s ip))⟩
  else
    ⟨true, update s ip (prune now (s ip) ++ [now])⟩

/-- Variant of the gate that follows the words of the specification
sentence for claim C1 literally: discard only timestamps strictly
older than RATE_LIMIT_WINDOW, keeping an entry whose age is exactly
the window length. Written for comparison with rate_limit_gate, which
is the translation of the source. -/
def rate_limit_gate_specC1 (s : RateState) (ip : String) (now : ℤ) : GateResult :=
  if RATE_LIMIT ≤ ((s ip).filter (fun t => now - t ≤ RATE_LIMIT_WINDOW)).length then
    ⟨false, update s ip ((s ip).filter (fun t => now - t ≤ RATE_LIMIT_WINDOW))⟩
  else
    ⟨true, update s ip ((s ip).filter (fun t => now - t ≤ RATE_LIMIT_WINDOW) ++ [now])⟩

/-- Classes of exception the upstream completion call can raise,
abstracted from the openai v1 library:
authenticationError is openai.AuthenticationError;
apiConnectionError is openai.APIConnectionError proper;
apiTimeoutError is openai.APITimeoutError, a subclass of
APIConnectionError; apiStatusError stands for any other
openai.APIStatusError such as RateLimitError; apiError stands for any
other openai.APIError; otherException is any exception outside the
APIError tree. -/
inductive ExcClass where
  | authenticationError
  | apiConnectionError
  | apiTimeoutError
  | apiStatusError
  | apiError
  | otherException
deriving DecidableEq

/-- A raised Python exception: its class and its message string. -/
structure PyExc where
  cls : ExcClass
  msg : String

/-- Matching against except AuthenticationError. -/
def isAuthMatch (c : ExcClass) : Bool :=
  c == .authenticationError

/-- Matching against except APIConnectionError: in openai v1,
APITimeoutError subclasses APIConnectionError, so a timeout is caught
by this clause as well. -/
def isConnMatch (c : ExcClass) : Bool :=
  c == .apiConnectionError || c == .apiTimeoutError

/-- Matching against except APIError, for the record: every class in
the openai APIError tree. The clause carrying it in chat.py sits after
the except Timeout clause and is unreachable, see handleUpstreamExc. -/
def isApiErrorMatch (c : ExcClass) : Bool :=
  c == .authenticationError || c == .apiConnectionError ||
    c == .apiTimeoutError || c == .apiStatusError || c == .apiError

/-- Response body of the 500 branch for an absent upstream client. -/
def serviceNotReadyBody : Json :=
  .obj [("error", .str "服务未准备好"),
        ("message", .str "DeepSeek客户端初始化失败，请检查日志")]

/-- Response body of the 400 branch for a falsy parsed JSON body. -/
def noJsonBody : Json :=
  .obj [("error", .str "未提供JSON数据")]

/-- Response body of the 400 branch for an invalid message value. -/
def invalidMessageBody : Json :=
  .obj [("error", .str "请输入有效的消息内容")]

/-- Response body of the 429 branch of the rate_limit decorator, with
the f-string rendered at the constant values of chat.py. -/
def rateLimitBody : Json :=
  .obj [("error", .str "速率限制 exceeded"),
        ("message", .str "每个IP在60秒内最多允许10个请求")]

/-- Response body of the except AuthenticationError branch. -/
def authFailedBody : Json :=
  .obj [("error", .str "认证失败"),
        ("message", .str "API密钥无效或已过期")]

/-- Response body of the except APIConnectionError branch. -/
def connectionFailedBody : Json :=
  .obj [("error", .str "连接失败"),
        ("message", .str "无法连接到AI服务，请稍后再试")]

/-- Response body of the except Timeout branch of chat.py, kept for
the record: the branch is unreachable, because the name Timeout bound
by the openai v1 import is httpx.Timeout, which is not an exception
class. -/
def timeoutBranchBody : Json :=
  .obj [("error", .str "请求超时"),
        ("message", .str "AI服务响应超时，请稍后再试")]

/-- Response body of the except APIError branch of chat.py, kept for
the record: the clause sits after except Timeout, and consulting the
Timeout clause already raises a TypeError that escapes to the outer
handler, so this branch is unreachable. -/
def apiErrorBranchBody (excMsg : String) : Json :=
  .obj [("error", .str "AI服务错误"),
        ("message", .str ("处理请求时发生错误: " ++ excMsg))]

/-- Message of the TypeError Python raises when an except clause names
a class that does not inherit from BaseException, as except Timeout
does with httpx.Timeout. -/
def timeoutClauseTypeErrorMsg : String :=
  "catching classes that do not inherit from BaseException is not allowed"

/-- Response body of the outer except Exception handler of
handle_chat: a fixed error tag, and details that expose str(e) only
when the Flask debug flag is on. -/
def internalErrorBody (debug : Bool) (excStr : String) : Json :=
  .obj [("error", .str "服务器内部错误"),
        ("details", .str (if debug then excStr else "请查看服务器日志获取详细信息"))]

/-- An HTTP response of the app: status code and JSON body. -/
structure HttpResponse where
  status : ℕ
  body : Json

/-- Field access on a response body, none when the body is not an
object or lacks the key. -/
def bodyGet (r : HttpResponse) (k : String) : Option Json :=
  match r.body with
  | .obj fs => jsonGet fs k
  | _ => none

/-- Result of the upstream completion call
client.chat.completions.create: either a well-formed response or a
raised exception. -/
inductive UpstreamOutcome where
  | success (reply modelName : String) (promptTokens completionTokens : ℕ)
  | raises (e : PyExc)

/-- Raw HTTP request body as it reaches request.get_json: absent,
present but not valid JSON, or a well-formed JSON document. -/
inductive RawBody where
  | absent
  | malformed (raw : String)
  | wellFormed (j : Json)

/-- Behaviour of Flask request.get_json inside handle_chat: a
well-formed document parses to its value; a malformed body raises
BadRequest, modelled as an error carrying str(e); an absent body is
modelled as returning None. -/
def getJson : RawBody → Except String (Option Json)
  | .absent => .ok none
  | .malformed _ => .error "400 Bad Request: Failed to decode JSON object"
  | .wellFormed j => .ok (some j)

/-- Behaviour of data.get, used as data.get(key) in handle_chat: a
dict lookup on objects; on any other truthy value the attribute access
raises AttributeError, modelled as an error carrying str(e). -/
def pyGet : Json → String → Except String (Option Json)
  | .obj fs, k => .ok (jsonGet fs k)
  | _, _ => .error "AttributeError: object has no attribute get"

/-- Result of one handle_chat invocation: the HTTP response and how
many upstream completion calls were attempted. -/
structure ChatResult where
  response : HttpResponse
  upstreamCalls : ℕ

/-- The except-clause chain around the upstream call, translated in
source order with the openai v1 class hierarchy:
except AuthenticationError catches exactly that class;
except APIConnectionError catches connection errors and, because
APITimeoutError subclasses it, timeouts as well;
except Timeout names httpx.Timeout, which is not an exception class,
so when this clause is consulted Python raises a TypeError that
escapes to the outer except Exception handler of handle_chat, which
returns the 500 internal-error body built from that TypeError; the
except APIError clause after it is therefore unreachable. -/
def handleUpstreamExc (debug : Bool) (e : PyExc) : HttpResponse :=
  if isAuthMatch e.cls then ⟨401, authFailedBody⟩
  else if isConnMatch e.cls then ⟨503, connectionFailedBody⟩
  else ⟨500, internalErrorBody debug timeoutClauseTypeErrorMsg⟩

/-- The view function handle_chat of chat.py (the body inside the
rate_limit decorator), as a function of the presence of the global
upstream client, the Flask debug flag, the raw request body and the
behaviour the upstream call would have if reached. Errors raised by
get_json or by the attribute access data.get are caught by the outer
except Exception handler, yielding the 500 internal-error body. -/
def handle_chat (clientPresent : Bool) (debug : Bool) (body : RawBody)
    (upstream : UpstreamOutcome) : ChatResult :=
  if !clientPresent then ⟨⟨500, serviceNotReadyBody⟩, 0⟩
  else
    match getJson body with
    | .error excStr => ⟨⟨500, internalErrorBody debug excStr⟩, 0⟩
    | .ok dataOpt =>
      if !optTruthy dataOpt then ⟨⟨400, noJsonBody⟩, 0⟩
      else
        match dataOpt with
        | none => ⟨⟨400, noJsonBody⟩, 0⟩
        | some data =>
          match pyGet data "message" with
          | .error excStr => ⟨⟨500, internalErrorBody debug excStr⟩, 0⟩
          | .ok userMessage =>
            if invalidMessage userMessage then ⟨⟨400, invalidMessageBody⟩, 0⟩
            else
              match upstream with
              | .success reply modelName pt ct =>
                ⟨⟨200, .obj [("reply", .str reply), ("model", .str modelName),
                  ("usage", .obj [("prompt_tokens", .num pt),
                                  ("completion_tokens", .num ct)])]⟩, 1⟩
              | .raises e => ⟨handleUpstreamExc debug e, 1⟩

/-- The POST /api/chat endpoint: the rate_limit decorator wrapped
around handle_chat. Returns the response, the timestamp map after the
request, and the number of upstream calls attempted. -/
def chatEndpoint (clientPresent : Bool) (debug : Bool) (s : RateState)
    (ip : String) (now : ℤ) (body : RawBody) (upstream : UpstreamOutcome) :
    HttpResponse × RateState × ℕ :=
  if (rate_limit_gate s ip now).allowed then
    ((handle_chat clientPresent debug body upstream).response,
     (rate_limit_gate s ip now).state,
     (handle_chat clientPresent debug body upstream).upstreamCalls)
  else
    (⟨429, rateLimitBody⟩, (rate_limit_gate s ip now).state, 0)

/-- The view function health_check of chat.py, as a function of the
presence of the upstream client and the environment-derived strings it
echoes. Second component: upstream calls attempted, always zero. -/
def health_check (clientPresent : Bool)
    (pythonVersion platformName environmentName : String) :
    HttpResponse × ℕ :=
  (⟨200, .obj [("status", .str "active"),
               ("service", .str "AI Chat API"),
               ("python_version", .str pythonVersion),
               ("platform", .str platformName),
               ("environment", .str environmentName),
               ("deepseek_connected", .bool clientPresent)]⟩, 0)

/-- Process-level configuration consumed by the handlers: presence of
the global upstream client, the Flask debug flag, and the strings the
health check echoes. -/
structure AppConfig where
  clientPresent : Bool
  debug : Bool
  pythonVersion : String
  platformName : String
  environmentName : String

/-- An inbound request to one of the two routes of the app. -/
inductive HttpRequest where
  | chatPost (ip : String) (now : ℤ) (body : RawBody)
      (upstream : UpstreamOutcome)
  | healthGet

/-- Route dispatch of the app: POST /api/chat runs through the
rate_limit decorator and handle_chat; GET /api/health carries no
rate_limit decorator and runs health_check directly, leaving the
timestamp map untouched. -/
def app_dispatch (cfg : AppConfig) (s : RateState) :
    HttpRequest → HttpResponse × RateState × ℕ
  | .healthGet =>
    let h := health_check cfg.clientPresent cfg.pythonVersion
      cfg.platformName cfg.environmentName
    (h.1, s, h.2)
  | .chatPost ip now body upstream =>
    chatEndpoint cfg.clientPresent cfg.debug s ip now body upstream

/-- A well-formed chat request body carrying the message hello, used
as the concrete valid request in several theorems. -/
def helloRequest : RawBody :=
  .wellFormed (.obj [("message", .str "hello")])

/-- A timestamp map holding RATE_LIMIT copies of time 0 for every
client, used as a concrete saturated state. -/
def sTenState : RateState :=
  fun _ => List.replicate RATE_LIMIT (0:ℤ)

/-- A timestamp map with three spaced entries for every client, used
as a concrete partially filled state. -/
def sThreeState : RateState :=
  fun _ => [0, 10, 20]

/-- The empty timestamp map: no client has any recorded request. -/
def emptyState : RateState :=
  fun _ => []

/-- A timestamp map that agrees with sThreeState on client a but not
elsewhere, used to exercise that the gate outcome for a client depends
only on that client. -/
def sMixedState : RateState :=
  fun k => if k = "a" then [0, 10, 20] else [99]

/-- Does an object body fail the message validation of handle_chat;
false on every non-object, where the validation is never reached. -/
def objInvalidMessage : Json → Bool
  | .obj fs => invalidMessage (jsonGet fs "message")
  | _ => false

/-- Does the parsed JSON value, when it is an object, fail the message
validation of handle_chat, or is it falsy: the set of well-formed
bodies that the 400 validation branches of handle_chat reject. -/
def rejectsInvalidMessage (j : Json) : Bool :=
  !truthy j || objInvalidMessage j

/-- Does a parsed JSON value carry a message field: only objects can. -/
def hasMessageField : Json → Bool
  | .obj fs => (jsonGet fs "message").isSome
  | _ => false

/-- Helper: the updated map reads back the written list at the written
key. -/
theorem update_same (s : RateState) (ip : String) (l : List ℤ) :
    update s ip l ip = l := by
  simp [update]

/-- C1 (amended): on each call the gate first discards the stored
timestamps of the client that are at least RATE_LIMIT_WINDOW old
(now - t >= 60, so an entry exactly 60 seconds old is discarded) and
keeps exactly the younger ones; if the remaining count is at least
RATE_LIMIT it rejects, storing the pruned list and appending nothing,
and the endpoint answers 429 without an upstream call; otherwise it
appends now and admits; consequently a client holding RATE_LIMIT
stored timestamps all strictly inside the window has its next request
rejected with its list unchanged. -/
theorem C1_window_gate (s : RateState) (ip : String) (now : ℤ) :
    (∀ t ∈ prune now (s ip), now - t < RATE_LIMIT_WINDOW) ∧
    (∀ t ∈ s ip, now - t < RATE_LIMIT_WINDOW → t ∈ prune now (s ip)) ∧
    (RATE_LIMIT ≤ (prune now (s ip)).length →
      rate_limit_gate s ip now = ⟨false, update s ip (prune now (s ip))⟩) ∧
    ((prune now (s ip)).length < RATE_LIMIT →
      rate_limit_gate s ip now =
        ⟨true, update s ip (prune now (s ip) ++ [now])⟩) ∧
    ((rate_limit_gate s ip now).allowed = false →
      ∀ (cp dbg : Bool) (body : RawBody) (u : UpstreamOutcome),
        (chatEndpoint cp dbg s ip now body u).1.status = 429 ∧
        (chatEndpoint cp dbg s ip now body u).2.2 = 0) ∧
    ((s ip).length = RATE_LIMIT →
      (∀ t ∈ s ip, now - t < RATE_LIMIT_WINDOW) →
      (rate_limit_gate s ip now).allowed = false ∧
      (rate_limit_gate s ip now).state ip = s ip) := by
  refine ⟨?_, ?_, ?_, ?_, ?_, ?_⟩
  · intro t ht
    simp [prune, List.mem_filter] at ht
    exact ht.2
  · intro t ht hlt
    simp [prune, List.mem_filter]
    exact ⟨ht, hlt⟩
  · intro h
    simp [rate_limit_gate, h]
  · intro h
    have hn : ¬ RATE_LIMIT ≤ (prune now (s ip)).length := by omega
    simp [rate_limit_gate, hn]
  · intro hrej cp dbg body u
    simp [chatEndpoint, hrej]
  · intro hlen hall
    have hps : prune now (s ip) = s ip := by
      rw [prune, List.filter_eq_self]
      intro t ht
      simpa using hall t ht
    constructor
    · simp [rate_limit_gate, hps, hlen]
    · simp [rate_limit_gate, hps, hlen, update]

/-- C1 witness: a saturated client is rejected at time 30 with a 429
endpoint response and an unchanged list. -/
theorem C1_window_gate_witness :
    ((rate_limit_gate sTenState "a" 30).allowed = false ∧
      (chatEndpoint true false sTenState "a" 30 helloRequest
        (.success "ok" "m" 1 2)).1.status = 429) ∧
    ((sTenState "a").length = RATE_LIMIT ∧
      (∀ t ∈ sTenState "a", (30:ℤ) - t < RATE_LIMIT_WINDOW) ∧
      (rate_limit_gate sTenState "a" 30).state "a" = sTenState "a") :=
  ⟨⟨by decide,
    ((C1_window_gate sTenState "a" 30).2.2.2.2.1 (by decide) true false
      helloRequest (.success "ok" "m" 1 2)).1⟩,
   ⟨by decide, by decide,
    ((C1_window_gate sTenState "a" 30).2.2.2.2.2 (by decide) (by decide)).2⟩⟩

/-- C1 counterexample: with ten stored timestamps whose age is exactly
RATE_LIMIT_WINDOW, the source gate discards them all and admits, while
the gate that discards only strictly older entries, as the claim is
worded, keeps all ten and rejects. -/
theorem C1_counterexample :
    (rate_limit_gate sTenState "a" 60).allowed = true ∧
    (rate_limit_gate_specC1 sTenState "a" 60).allowed = false := by
  decide

/-- C7: for a client whose every stored timestamp lies more than
RATE_LIMIT_WINDOW before the next request time, that request is
admitted; stated for the state left by a rejecting call. -/
theorem C7_window_reset (s : RateState) (ip : String) (now0 now : ℤ)
    (_hrej : (rate_limit_gate s ip now0).allowed = false)
    (h : ∀ t ∈ (rate_limit_gate s ip now0).state ip,
      RATE_LIMIT_WINDOW < now - t) :
    (rate_limit_gate (rate_limit_gate s ip now0).state ip now).allowed
      = true := by
  have key : ∀ s2 : RateState, (∀ t ∈ s2 ip, RATE_LIMIT_WINDOW < now - t) →
      (rate_limit_gate s2 ip now).allowed = true := by
    intro s2 h2
    have hnil : prune now (s2 ip) = [] := by
      rw [prune, List.filter_eq_nil_iff]
      intro t ht
      have := h2 t ht
      simp only [decide_eq_true_eq]
      omega
    simp [rate_limit_gate, hnil, RATE_LIMIT]
  exact key _ h

/-- C7 witness: the saturated client rejected at time 30 is admitted
again at time 100. -/
theorem C7_window_reset_witness :
    ((rate_limit_gate sTenState "a" 30).allowed = false ∧
      (∀ t ∈ (rate_limit_gate sTenState "a" 30).state "a",
        RATE_LIMIT_WINDOW < (100:ℤ) - t)) ∧
    (rate_limit_gate (rate_limit_gate sTenState "a" 30).state "a"
      100).allowed = true :=
  ⟨⟨by decide, by decide⟩,
   C7_window_reset sTenState "a" 30 100 (by decide) (by decide)⟩

/-- C8: rate-limit state is partitioned by client identifier: a gate
call for one client leaves every other client unchanged, and both the
outcome and the stored list of a client depend only on that client's
own entry of the map. -/
theorem C8_isolation (s : RateState) (ip : String) (now : ℤ) :
    (∀ k, k ≠ ip → (rate_limit_gate s ip now).state k = s k) ∧
    (∀ s2 : RateState, s2 ip = s ip →
      (rate_limit_gate s2 ip now).allowed
        = (rate_limit_gate s ip now).allowed ∧
      (rate_limit_gate s2 ip now).state ip
        = (rate_limit_gate s ip now).state ip) := by
  constructor
  · intro k hk
    unfold rate_limit_gate
    split <;> simp [update, hk]
  · intro s2 h2
    unfold rate_limit_gate
    rw [h2]
    split <;> simp [update]

/-- C8 witness: a call for client a leaves client b unchanged, and a
map that agrees with the original on client a produces the same
outcome and the same stored list for a. -/
theorem C8_isolation_witness :
    (("b":String) ≠ "a" ∧
      (rate_limit_gate sThreeState "a" 30).state "b" = sThreeState "b") ∧
    (sMixedState "a" = sThreeState "a" ∧
      ((rate_limit_gate sMixedState "a" 30).allowed
          = (rate_limit_gate sThreeState "a" 30).allowed ∧
        (rate_limit_gate sMixedState "a" 30).state "a"
          = (rate_limit_gate sThreeState "a" 30).state "a")) :=
  ⟨⟨by decide, (C8_isolation sThreeState "a" 30).1 "b" (by decide)⟩,
   ⟨by decide, (C8_isolation sThreeState "a" 30).2 sMixedState (by decide)⟩⟩

/-- C10: after a gate call the stored list of the processed client has
at most RATE_LIMIT entries, every entry is strictly younger than
RATE_LIMIT_WINDOW relative to the call time, and the list stays
non-decreasing and bounded by the call time; the three hypotheses are
exactly this invariant for the previous calls, and they hold of the
empty initial list. -/
theorem C10_invariant (s : RateState) (ip : String) (now : ℤ)
    (h1 : (s ip).length ≤ RATE_LIMIT)
    (h2 : (s ip).Pairwise (· ≤ ·))
    (h3 : ∀ t ∈ s ip, t ≤ now) :
    ((rate_limit_gate s ip now).state ip).length ≤ RATE_LIMIT ∧
    (∀ t ∈ (rate_limit_gate s ip now).state ip,
      now - t < RATE_LIMIT_WINDOW) ∧
    ((rate_limit_gate s ip now).state ip).Pairwise (· ≤ ·) ∧
    (∀ t ∈ (rate_limit_gate s ip now).state ip, t ≤ now) := by
  unfold rate_limit_gate
  split
  · simp only [update_same]
    refine ⟨le_trans (List.length_filter_le _ _) h1, ?_, ?_, ?_⟩
    · intro t ht
      simp [prune, List.mem_filter] at ht
      exact ht.2
    · exact h2.sublist (List.filter_sublist _)
    · intro t ht
      exact h3 t (List.mem_of_mem_filter ht)
  · rename_i hlt
    simp only [update_same]
    have hlen : (prune now (s ip)).length < RATE_LIMIT := by omega
    refine ⟨?_, ?_, ?_, ?_⟩
    · rw [List.length_append]
      simp only [List.length_singleton]
      omega
    · intro t ht
      rcases List.mem_append.mp ht with hf | hs
      · simp [prune, List.mem_filter] at hf
        exact hf.2
      · simp at hs
        subst hs
        simp [RATE_LIMIT_WINDOW]
    · rw [List.pairwise_append]
      refine ⟨h2.sublist (List.filter_sublist _), by simp, ?_⟩
      intro a ha b hb
      simp at hb
      subst hb
      exact h3 a (List.mem_of_mem_filter ha)
    · intro t ht
      rcases List.mem_append.mp ht with hf | hs
      · exact h3 t (List.mem_of_mem_filter hf)
      · simp at hs
        omega

/-- C10 witness: a client with three ordered in-window entries keeps
the invariant through a call at time 30. -/
theorem C10_invariant_witness :
    ((sThreeState "a").length ≤ RATE_LIMIT ∧
      (sThreeState "a").Pairwise (· ≤ ·) ∧
      (∀ t ∈ sThreeState "a", t ≤ (30:ℤ))) ∧
    (((rate_limit_gate sThreeState "a" 30).state "a").length ≤ RATE_LIMIT ∧
      (∀ t ∈ (rate_limit_gate sThreeState "a" 30).state "a",
        (30:ℤ) - t < RATE_LIMIT_WINDOW) ∧
      ((rate_limit_gate sThreeState "a" 30).state "a").Pairwise (· ≤ ·) ∧
      (∀ t ∈ (rate_limit_gate sThreeState "a" 30).state "a", t ≤ (30:ℤ))) :=
  ⟨⟨by decide, by decide, by decide⟩,
   C10_invariant sThreeState "a" 30 (by decide) (by decide) (by decide)⟩

/-- C2 (code behaviour at the failing input): a simulated upstream
authentication failure yields 401 and a connection failure yields 503,
but a simulated timeout (openai APITimeoutError) yields 503, not the
504 the claim states, because APITimeoutError subclasses
APIConnectionError and the connection clause precedes the timeout
clause, whose own class httpx.Timeout is not even an exception; any
other upstream API error reaches the outer handler and yields 500;
exactly one upstream call is made. -/
theorem C2_upstream_status (debug : Bool) (m : String) :
    (handle_chat true debug helloRequest
      (.raises ⟨.apiTimeoutError, m⟩)).response.status = 503 ∧
    ¬ (handle_chat true debug helloRequest
      (.raises ⟨.apiTimeoutError, m⟩)).response.status = 504 ∧
    (handle_chat true debug helloRequest
      (.raises ⟨.authenticationError, m⟩)).response.status = 401 ∧
    (handle_chat true debug helloRequest
      (.raises ⟨.apiConnectionError, m⟩)).response.status = 503 ∧
    (handle_chat true debug helloRequest
      (.raises ⟨.apiStatusError, m⟩)).response.status = 500 ∧
    (handle_chat true debug helloRequest
      (.raises ⟨.apiError, m⟩)).response.status = 500 ∧
    (handle_chat true debug helloRequest
      (.raises ⟨.apiTimeoutError, m⟩)).upstreamCalls = 1 := by
  refine ⟨rfl, ?_, rfl, rfl, rfl, rfl, rfl⟩
  have hs : (handle_chat true debug helloRequest
      (.raises ⟨.apiTimeoutError, m⟩)).response.status = 503 := rfl
  omega

/-- C3 counterexample: the body whose parsed JSON is the non-empty
array [1] lacks a message field, yet handle_chat answers 500 (the
AttributeError of data.get on a list reaches the blanket handler), not
the 400 the claim states; the upstream call is still never made. -/
theorem C3_counterexample :
    hasMessageField (Json.arr [Json.num 1]) = false ∧
    (handle_chat true false (.wellFormed (.arr [.num 1]))
      (.success "ok" "m" 1 2)).response.status = 500 ∧
    ¬ (handle_chat true false (.wellFormed (.arr [.num 1]))
      (.success "ok" "m" 1 2)).response.status = 400 ∧
    (handle_chat true false (.wellFormed (.arr [.num 1]))
      (.success "ok" "m" 1 2)).upstreamCalls = 0 := by
  decide

set_option maxRecDepth 8000 in
/-- C3 (amended): for every request body whose parsed JSON is falsy or
is an object whose message field is absent, falsy, not a string, or
empty after stripping whitespace, handle_chat answers 400 with an
error field and never invokes the upstream call; a truthy non-object
body instead yields 500, also without an upstream call. -/
theorem C3_invalid_message (j : Json) (debug : Bool) (u : UpstreamOutcome)
    (h : rejectsInvalidMessage j = true) :
    (handle_chat true debug (.wellFormed j) u).response.status = 400 ∧
    (bodyGet (handle_chat true debug (.wellFormed j) u).response
      "error").isSome = true ∧
    (handle_chat true debug (.wellFormed j) u).upstreamCalls = 0 := by
  cases htruthy : truthy j with
  | false =>
    simp only [handle_chat, getJson, optTruthy, htruthy, Bool.not_false,
      Bool.not_true, Bool.false_eq_true, if_false, if_true]
    exact ⟨trivial, by decide, trivial⟩
  | true =>
    have hobj : objInvalidMessage j = true := by
      simp only [rejectsInvalidMessage, htruthy, Bool.not_true,
        Bool.false_or] at h
      exact h
    cases j with
    | null => exact absurd hobj (by simp [objInvalidMessage])
    | bool b => exact absurd hobj (by simp [objInvalidMessage])
    | num n => exact absurd hobj (by simp [objInvalidMessage])
    | str s => exact absurd hobj (by simp [objInvalidMessage])
    | arr xs => exact absurd hobj (by simp [objInvalidMessage])
    | obj fs =>
      simp only [objInvalidMessage] at hobj
      simp only [handle_chat, getJson, optTruthy, htruthy, Bool.not_true,
        Bool.false_eq_true, if_false, pyGet, hobj, if_true]
      exact ⟨trivial, by decide, trivial⟩

/-- C3 witness: the body with a whitespace-only message is rejected
with 400, an error field, and no upstream call. -/
theorem C3_invalid_message_witness :
    rejectsInvalidMessage (.obj [("message", .str "   ")]) = true ∧
    ((handle_chat true false
        (.wellFormed (.obj [("message", .str "   ")]))
        (.success "ok" "m" 1 2)).response.status = 400 ∧
      (bodyGet (handle_chat true false
        (.wellFormed (.obj [("message", .str "   ")]))
        (.success "ok" "m" 1 2)).response "error").isSome = true ∧
      (handle_chat true false
        (.wellFormed (.obj [("message", .str "   ")]))
        (.success "ok" "m" 1 2)).upstreamCalls = 0) :=
  ⟨by decide,
   C3_invalid_message (.obj [("message", .str "   ")]) false
     (.success "ok" "m" 1 2) (by decide)⟩

/-- C4: when the upstream client handle is absent, every chat request
that passes the rate limiter answers 500 with the service-not-ready
error and message fields, and no upstream call is attempted. -/
theorem C4_service_not_ready (debug : Bool) (s : RateState) (ip : String)
    (now : ℤ) (body : RawBody) (u : UpstreamOutcome)
    (h : (rate_limit_gate s ip now).allowed = true) :
    (chatEndpoint false debug s ip now body u).1.status = 500 ∧
    bodyGet (chatEndpoint false debug s ip now body u).1 "error"
      = some (.str "服务未准备好") ∧
    bodyGet (chatEndpoint false debug s ip now body u).1 "message"
      = some (.str "DeepSeek客户端初始化失败，请检查日志") ∧
    (chatEndpoint false debug s ip now body u).2.2 = 0 := by
  cases body <;>
    simp [chatEndpoint, h, handle_chat, bodyGet, jsonGet,
      serviceNotReadyBody]

/-- C4 witness: with an empty rate state the gate admits and the
service-not-ready response is produced with no upstream call. -/
theorem C4_service_not_ready_witness :
    (rate_limit_gate emptyState "a" 0).allowed = true ∧
    ((chatEndpoint false false emptyState "a" 0 helloRequest
        (.success "ok" "m" 1 2)).1.status = 500 ∧
      bodyGet (chatEndpoint false false emptyState "a" 0 helloRequest
        (.success "ok" "m" 1 2)).1 "error" = some (.str "服务未准备好") ∧
      bodyGet (chatEndpoint false false emptyState "a" 0 helloRequest
        (.success "ok" "m" 1 2)).1 "message"
        = some (.str "DeepSeek客户端初始化失败，请检查日志") ∧
      (chatEndpoint false false emptyState "a" 0 helloRequest
        (.success "ok" "m" 1 2)).2.2 = 0) :=
  ⟨by decide,
   C4_service_not_ready false emptyState "a" 0 helloRequest
     (.success "ok" "m" 1 2) (by decide)⟩

/-- C5 (code behaviour at the failing input): a malformed request body
makes request.get_json raise BadRequest, which the blanket except of
handle_chat converts to 500 with the internal-error tag, not the 400
the claim states; no upstream call is made; an absent body does get
400. -/
theorem C5_malformed_behavior (debug : Bool) (u : UpstreamOutcome)
    (raw : String) :
    (handle_chat true debug (.malformed raw) u).response.status = 500 ∧
    ¬ (handle_chat true debug (.malformed raw) u).response.status = 400 ∧
    (handle_chat true debug (.malformed raw) u).upstreamCalls = 0 ∧
    bodyGet (handle_chat true debug (.malformed raw) u).response "error"
      = some (.str "服务器内部错误") ∧
    (handle_chat true debug .absent u).response.status = 400 := by
  refine ⟨rfl, ?_, rfl, rfl, rfl⟩
  have hs : (handle_chat true debug (.malformed raw) u).response.status
      = 500 := rfl
  omega

/-- C6: the response to an upstream failure is a function of the
exception class alone, never of the exception message, and an
unclassified failure with the debug flag off gets the fixed generic
internal-error body, which carries no exception detail. -/
theorem C6_no_leak (c : ExcClass) (m1 m2 : String) (debug : Bool) :
    handle_chat true debug helloRequest (.raises ⟨c, m1⟩)
      = handle_chat true debug helloRequest (.raises ⟨c, m2⟩) ∧
    (isAuthMatch c = false → isConnMatch c = false →
      (handle_chat true false helloRequest (.raises ⟨c, m1⟩)).response
        = ⟨500, internalErrorBody false timeoutClauseTypeErrorMsg⟩) := by
  constructor
  · rfl
  · intro h1 h2
    show handleUpstreamExc false ⟨c, m1⟩
      = ⟨500, internalErrorBody false timeoutClauseTypeErrorMsg⟩
    simp [handleUpstreamExc, h1, h2]

/-- C6 witness: an unclassified exception with the debug flag off
produces the fixed generic 500 body, at two different messages. -/
theorem C6_no_leak_witness :
    isAuthMatch .otherException = false ∧
    isConnMatch .otherException = false ∧
    (handle_chat true false helloRequest
        (.raises ⟨.otherException, "boom"⟩)).response
      = ⟨500, internalErrorBody false timeoutClauseTypeErrorMsg⟩ :=
  ⟨by decide, by decide,
   (C6_no_leak .otherException "boom" "different detail" false).2
     (by decide) (by decide)⟩

/-- C9: GET /api/health answers 200 with status active, its
deepseek_connected field is false exactly when the upstream client
handle is absent, the rate-limit state is untouched, and no upstream
call is made. -/
theorem C9_health (cfg : AppConfig) (s : RateState) :
    (app_dispatch cfg s .healthGet).1.status = 200 ∧
    bodyGet (app_dispatch cfg s .healthGet).1 "status"
      = some (.str "active") ∧
    (bodyGet (app_dispatch cfg s .healthGet).1 "deepseek_connected"
        = some (.bool false) ↔ cfg.clientPresent = false) ∧
    (app_dispatch cfg s .healthGet).2.1 = s ∧
    (app_dispatch cfg s .healthGet).2.2 = 0 := by
  obtain ⟨cp, dbg, pv, pf, env⟩ := cfg
  refine ⟨rfl, rfl, ?_, rfl, rfl⟩
  cases cp <;> simp [app_dispatch, health_check, bodyGet, jsonGet]
